import Mathlib

/-!
Shallow embedding of the emurs NES emulator core (CPU interpreter in
src/cpu.rs, PPU register state machine in src/ppu.rs and
src/ppu/ppu_memory.rs, memory bus in src/cpu/bus.rs, controller in
src/cpu/controller.rs), together with theorems settling the frozen claims
about the natural-language specification.

Conventions of the embedding:
* machine integers (u8, u16, u32) are `Nat` with explicit reductions
  (`% 256`, `% 65536`) exactly where the Rust code wraps;
* byte-assembly of the form `lo | (hi << 8)` on disjoint byte halves is
  rendered arithmetically as `lo + 256 * hi`, and masks of contiguous low
  bits (`& 0x07FF`, `& 0xFF`, `& 0x3FFF`) as `% 0x800`, `% 256`, `% 0x4000`;
* genuinely bitwise operations (the status-register bit twiddling and the
  ADC overflow formula) keep `^^^`, `&&&`, `|||`, `<<<`;
* code that can panic is modelled with `Option`, `none` standing for the
  panic; memory devices follow the `Memory` trait shape with
  `Option`-valued read/write.
-/

/-- Bit test used throughout the Rust sources: `p & (1 << bit) != 0`. -/
def natGetBit (p bit : Nat) : Bool :=
  decide (p &&& (1 <<< bit) ≠ 0)

/-- Bit set/clear used by `update_status_bit` and the PPU register helpers:
`p |= 1 << bit` respectively `p &= !(1 << bit)` (u8 complement). -/
def natSetBit (p bit : Nat) (v : Bool) : Nat :=
  if v then p ||| (1 <<< bit) else p &&& (255 ^^^ (1 <<< bit))

/-- The 6502 register file of `struct Registers` in src/cpu.rs. -/
structure Registers where
  pc : Nat
  a : Nat
  x : Nat
  y : Nat
  p : Nat
  s : Nat
deriving Repr, DecidableEq

namespace Registers

/-- Mirrors `Registers::new` in src/cpu.rs (lines 50 to 59). -/
def new : Registers :=
  { a := 0, x := 0, y := 0, s := 0, pc := 0x0400, p := 0 }

def getStatusBit (r : Registers) (bit : Nat) : Bool :=
  natGetBit r.p bit

def updateStatusBit (r : Registers) (bit : Nat) (v : Bool) : Registers :=
  { r with p := natSetBit r.p bit v }

def getCarryBit (r : Registers) : Bool := r.getStatusBit 0
def updateCarryBit (r : Registers) (v : Bool) : Registers := r.updateStatusBit 0 v
def getZeroBit (r : Registers) : Bool := r.getStatusBit 1
def updateZeroBit (r : Registers) (v : Bool) : Registers := r.updateStatusBit 1 v
def getInteruptBit (r : Registers) : Bool := r.getStatusBit 2
def getDecimalBit (r : Registers) : Bool := r.getStatusBit 3
def getOverflowBit (r : Registers) : Bool := r.getStatusBit 6
def updateOverflowBit (r : Registers) (v : Bool) : Registers := r.updateStatusBit 6 v
def getNegativeBit (r : Registers) : Bool := r.getStatusBit 7
def updateNegativeBit (r : Registers) (v : Bool) : Registers := r.updateStatusBit 7 v

/-- Mirrors `update_zn_flags`: Z from `value == 0`, N from `value & 0x80 != 0`. -/
def updateZnFlags (r : Registers) (value : Nat) : Registers :=
  (r.updateZeroBit (decide (value = 0))).updateNegativeBit
    (decide (value &&& (1 <<< 7) ≠ 0))

/-- Mirrors `update_a`: store the value in A and refresh Z and N. -/
def updateA (r : Registers) (value : Nat) : Registers :=
  { r.updateZnFlags value with a := value }

def updateX (r : Registers) (value : Nat) : Registers :=
  { r.updateZnFlags value with x := value }

def updateY (r : Registers) (value : Nat) : Registers :=
  { r.updateZnFlags value with y := value }

/-- Mirrors `CPU::adc` in src/cpu.rs (lines 335 to 364).  `sum` is the u16
sum, `result` its low byte; the decimal branch applies the plus 0x06 and
plus 0x60 corrections of the source.  The u8 complement `!(a ^ m)` is
rendered as `(a ^^^ m) ^^^ 255`. -/
def adc (r : Registers) (m : Nat) : Registers :=
  let a := r.a
  let c := if r.getCarryBit then 1 else 0
  let sum := a + m + c
  let result := sum % 256
  let v := decide (((a ^^^ m) ^^^ 255) &&& (a ^^^ result) &&& 0x80 ≠ 0)
  if r.getDecimalBit then
    let adj := (if (a % 16) + (m % 16) + c > 9 then 0x06 else 0) +
      (if sum > 0x99 then 0x60 else 0)
    let bcd := (result + adj % 256) % 256
    let carry := decide (sum > 0x99)
    (((r.updateCarryBit carry).updateOverflowBit v).updateA bcd)
  else
    (((r.updateCarryBit (decide (sum > 0xFF))).updateOverflowBit v).updateA result)

end Registers

/-- CPU state for the instruction-level claims: the register file of
src/cpu.rs together with the flat 64 KiB `RAM` of src/ram.rs, modelled as a
function from addresses to bytes. -/
structure CpuState where
  regs : Registers
  mem : Nat → Nat

namespace CpuState

/-- Mirrors `RAM::write`: pointwise update of the memory image. -/
def writeMem (s : CpuState) (a v : Nat) : CpuState :=
  { s with mem := fun x => if x = a then v else s.mem x }

/-- Mirrors `CPU::next`: read the byte at PC and post-increment PC
(with the u16 wrap of `wrapping_add(1)`). -/
def next (s : CpuState) : Nat × CpuState :=
  (s.mem s.regs.pc, { s with regs := { s.regs with pc := (s.regs.pc + 1) % 65536 } })

/-- Mirrors `CPU::push_stack`: write at `0x0100 + s`, then decrement S with
u8 wrap (`wrapping_sub(1)` rendered as `(s + 255) % 256`). -/
def pushStack (s : CpuState) (data : Nat) : CpuState :=
  let s1 := s.writeMem (0x0100 + s.regs.s) data
  { s1 with regs := { s1.regs with s := (s1.regs.s + 255) % 256 } }

/-- Mirrors `CPU::pull_stack`: increment S with u8 wrap, then read at
`0x0100 + s`. -/
def pullStack (s : CpuState) : Nat × CpuState :=
  let s1 : CpuState := { s with regs := { s.regs with s := (s.regs.s + 1) % 256 } }
  (s1.mem (0x0100 + s1.regs.s), s1)

/-- Mirrors `CPU::jsr` in src/cpu.rs (lines 829 to 843), entered with PC just
past the JSR opcode.  Fetches the two operand bytes, pushes `pc - 1`
(high byte first), and jumps to the operand. -/
def jsr (s : CpuState) : CpuState :=
  let (targetLo, s1) := s.next
  let (targetHi, s2) := s1.next
  let targetAddr := targetLo + 256 * targetHi
  let ret := (s2.regs.pc + 65535) % 65536
  let retLo := ret % 256
  let retHi := ret / 256
  let s3 := s2.pushStack retHi
  let s4 := s3.pushStack retLo
  { s4 with regs := { s4.regs with pc := targetAddr } }

/-- Mirrors `CPU::rts` in src/cpu.rs (lines 845 to 856): pull the return
address (low byte first) and set PC to it plus one. -/
def rts (s : CpuState) : CpuState :=
  let (retLo, s1) := s.pullStack
  let (retHi, s2) := s1.pullStack
  let retAddr := retLo + 256 * retHi
  { s2 with regs := { s2.regs with pc := (retAddr + 1) % 65536 } }

/-- Mirrors `CPU::jmp_absolute` in src/cpu.rs (lines 809 to 818), entered
with PC just past the JMP opcode.  `instr_addr` is `pc - 1`, the address of
the opcode; if the operand equals it the source panics
(`Trapped at ...`), modelled as `none`. -/
def jmpAbsolute (s : CpuState) : Option CpuState :=
  let instrAddr := s.regs.pc - 1
  let (lo, s1) := s.next
  let (hi, s2) := s1.next
  let data := lo + 256 * hi
  if data = instrAddr then none
  else some { s2 with regs := { s2.regs with pc := data } }

/-- Mirrors `CPU::jmp_indirect` in src/cpu.rs (lines 819 to 827), entered
with PC just past the opcode: the target low byte is read at the pointer and
the high byte at `pointer.wrapping_add(1)` on the full 16 bits. -/
def jmpIndirect (s : CpuState) : CpuState :=
  let (lo, s1) := s.next
  let (hi, s2) := s1.next
  let addr := lo + 256 * hi
  let dataLo := s2.mem addr
  let dataHi := s2.mem ((addr + 1) % 65536)
  let data := dataLo + 256 * dataHi
  { s2 with regs := { s2.regs with pc := data } }

end CpuState

/-- Write-latch half of PPUADDR, mirrors `struct PpuAddr` in src/ppu.rs
(lines 7 to 46). -/
structure PpuAddr where
  hi : Nat
  lo : Nat
  isHi : Bool
deriving Repr, DecidableEq

namespace PpuAddr

/-- Mirrors `PpuAddr::new`. -/
def new : PpuAddr := { hi := 0, lo := 0, isHi := true }

/-- Mirrors `PpuAddr::set`: store into the half selected by the latch, then
flip the latch. -/
def set (a : PpuAddr) (value : Nat) : PpuAddr :=
  let a1 := if a.isHi then { a with hi := value } else { a with lo := value }
  { a1 with isHi := !a1.isHi }

/-- Mirrors `PpuAddr::get_addr`: assemble the u16 from the two byte halves
and mask to 14 bits (`& 0x3FFF` rendered as `% 0x4000`). -/
def getAddr (a : PpuAddr) : Nat :=
  (a.hi * 256 + a.lo) % 0x4000

/-- Mirrors `PpuAddr::increment_addr`: u16 wrapping add, then split back
into bytes (`>> 8` as `/ 256`, `& 0xFF` as `% 256`). -/
def incrementAddr (a : PpuAddr) (amount : Nat) : PpuAddr :=
  let newAddr := (a.getAddr + amount) % 65536
  { a with hi := (newAddr / 256) % 256, lo := newAddr % 256 }

/-- Mirrors `PpuAddr::reset_latch`. -/
def resetLatch (a : PpuAddr) : PpuAddr := { a with isHi := true }

end PpuAddr

/-- Write-latch pair of PPUSCROLL, mirrors `struct PpuScroll` in src/ppu.rs
(lines 48 to 85).  Note the source gives it its own `is_x` latch, separate
from the `is_hi` latch of `PpuAddr`. -/
structure PpuScroll where
  x : Nat
  y : Nat
  isX : Bool
deriving Repr, DecidableEq

namespace PpuScroll

/-- Mirrors `PpuScroll::new`. -/
def new : PpuScroll := { x := 0, y := 0, isX := true }

/-- Mirrors `PpuScroll::set`. -/
def set (sc : PpuScroll) (value : Nat) : PpuScroll :=
  let s1 := if sc.isX then { sc with x := value } else { sc with y := value }
  { s1 with isX := !s1.isX }

/-- Mirrors `PpuScroll::reset_latch`. -/
def resetLatch (sc : PpuScroll) : PpuScroll := { sc with isX := true }

end PpuScroll

/-- The `Memory` trait of src/memory.rs.  `Option` models the panics of the
partial implementations (`PpuMemory` rejects some ranges); total
implementations always return `some`. -/
class MemDev (M : Type) where
  read : M → Nat → Option Nat
  write : M → Nat → Nat → Option M

/-- A trivial total memory device in the role the repository's own tests
give `DummyMemory`: reads yield a fixed byte, writes are absorbed. -/
structure ConstMem where
  val : Nat
deriving Repr, DecidableEq

instance : MemDev ConstMem where
  read m _ := some m.val
  write m _ _ := some m

/-- Mirrors `enum NametableMirroring` of src/nes_rom.rs. -/
inductive NametableMirroring where
  | Vertical
  | Horizontal
deriving Repr, DecidableEq

/-- Mirrors `struct PpuMemory` of src/ppu/ppu_memory.rs: CHR ROM bytes, the
2 KiB nametable VRAM and the 32-byte palette table (both `Ram` vectors,
modelled as functions). -/
structure PpuMemory where
  chrRom : List Nat
  vram : Nat → Nat
  mirroring : NametableMirroring
  palette : Nat → Nat

namespace PpuMemory

/-- Mirrors `PpuMemory::new`: fresh zeroed VRAM and palette RAM. -/
def new (chr : List Nat) (m : NametableMirroring) : PpuMemory :=
  { chrRom := chr, vram := fun _ => 0, mirroring := m, palette := fun _ => 0 }

/-- Mirrors `PpuMemory::mirror_vram_addr`.  The source's `unreachable!` arm
for offsets at or above 0x1000 cannot be hit from `read`/`write`, which
only pass offsets below 0x1000; it is mapped to 0 here. -/
def mirrorVramAddr (m : PpuMemory) (vramAddr : Nat) : Nat :=
  match m.mirroring with
  | .Vertical =>
    if vramAddr < 0x400 then vramAddr
    else if vramAddr < 0x800 then vramAddr
    else if vramAddr < 0xC00 then vramAddr - 0x800
    else if vramAddr < 0x1000 then vramAddr - 0x800
    else 0
  | .Horizontal =>
    if vramAddr < 0x400 then vramAddr
    else if vramAddr < 0x800 then vramAddr - 0x400
    else if vramAddr < 0xC00 then vramAddr - 0x400
    else if vramAddr < 0x1000 then vramAddr - 0x800
    else 0

/-- Mirrors `PpuMemory::read` (src/ppu/ppu_memory.rs lines 41 to 56);
`none` stands for the panics (reads in 0x3000 to 0x3EFF, out-of-bounds CHR
indexing, addresses at or above 0x4000).  The palette branch is
`(addr - 0x3F00) % size` with size 0x20. -/
def read (m : PpuMemory) (addr : Nat) : Option Nat :=
  if addr < 0x2000 then m.chrRom.get? addr
  else if addr < 0x3000 then some (m.vram (m.mirrorVramAddr (addr - 0x2000)))
  else if addr < 0x3F00 then none
  else if addr < 0x4000 then some (m.palette ((addr - 0x3F00) % 0x20))
  else none

/-- Mirrors `PpuMemory::write` (src/ppu/ppu_memory.rs lines 59 to 73);
`none` stands for the panics (CHR ROM writes, the 0x3000 to 0x3EFF range,
addresses at or above 0x4000). -/
def write (m : PpuMemory) (addr data : Nat) : Option PpuMemory :=
  if addr < 0x2000 then none
  else if addr < 0x3000 then
    some { m with vram := fun i =>
      if i = m.mirrorVramAddr (addr - 0x2000) then data else m.vram i }
  else if addr < 0x3F00 then none
  else if addr < 0x4000 then
    some { m with palette := fun i =>
      if i = (addr - 0x3F00) % 0x20 then data else m.palette i }
  else none

end PpuMemory

instance : MemDev PpuMemory where
  read := PpuMemory.read
  write := PpuMemory.write

/-- Mirrors `struct Ppu<M: Memory>` of src/ppu.rs. -/
structure Ppu (M : Type) where
  ctrl : Nat
  mask : Nat
  status : Nat
  oamAddr : Nat
  oamData : Nat
  scroll : PpuScroll
  addr : PpuAddr
  dataBuffer : Nat
  oamDma : Nat
  scanline : Nat
  cycle : Nat
  nmi : Bool
  newFrame : Bool
  memory : M

namespace Ppu

/-- Mirrors `Ppu::new_with_memory` (and `Ppu::new`, which differs only in
building a `PpuMemory`): all registers zero, scanline 1, cycle 0. -/
def newWithMemory {M : Type} (memory : M) : Ppu M :=
  { ctrl := 0, mask := 0, status := 0, oamAddr := 0, oamData := 0,
    scroll := PpuScroll.new, addr := PpuAddr.new, dataBuffer := 0,
    oamDma := 0, scanline := 1, cycle := 0, nmi := false, newFrame := false,
    memory := memory }

/-- Mirrors `Ppu::new` for `PpuMemory`. -/
def new (chrRom : List Nat) (mirroring : NametableMirroring) : Ppu PpuMemory :=
  newWithMemory (PpuMemory.new chrRom mirroring)

def getCtrlBit {M : Type} (p : Ppu M) (bit : Nat) : Bool := natGetBit p.ctrl bit

def setCtrlBit {M : Type} (p : Ppu M) (bit : Nat) (v : Bool) : Ppu M :=
  { p with ctrl := natSetBit p.ctrl bit v }

def getStatusBit {M : Type} (p : Ppu M) (bit : Nat) : Bool := natGetBit p.status bit

def setStatusBit {M : Type} (p : Ppu M) (bit : Nat) (v : Bool) : Ppu M :=
  { p with status := natSetBit p.status bit v }

def getMaskBit {M : Type} (p : Ppu M) (bit : Nat) : Bool := natGetBit p.mask bit

/-- Mirrors `Ppu::is_vblank`: PPUSTATUS bit 7. -/
def isVblank {M : Type} (p : Ppu M) : Bool := p.getStatusBit 7

/-- Mirrors `Ppu::tick` (src/ppu.rs lines 173 to 194).  The dot counter is
overwritten with the argument; when it exceeds 341 it is reduced once and
the scanline advances, with the VBlank transition at scanline 241 and the
wrap (clearing VBlank and sprite-hit, raising the new-frame flag) once the
scanline exceeds 262. -/
def tick {M : Type} (p : Ppu M) (cycle : Nat) : Ppu M :=
  let p1 : Ppu M := { p with cycle := cycle }
  if 341 < p1.cycle then
    let p2 : Ppu M := { p1 with cycle := p1.cycle - 341, scanline := p1.scanline + 1 }
    let p3 : Ppu M :=
      if p2.scanline = 240 + 1 then
        let p2a := p2.setStatusBit 7 true
        if p2a.getCtrlBit 7 then { p2a with nmi := true } else p2a
      else p2
    if 262 < p3.scanline then
      { (p3.setStatusBit 6 false).setStatusBit 7 false with
        scanline := 0, nmi := false, newFrame := true }
    else p3
  else p1

/-- Mirrors `Ppu::poll_nmi`. -/
def pollNmi {M : Type} (p : Ppu M) : Bool × Ppu M :=
  (p.nmi, { p with nmi := false })

/-- Mirrors `Ppu::poll_new_frame`. -/
def pollNewFrame {M : Type} (p : Ppu M) : Bool × Ppu M :=
  (p.newFrame, { p with newFrame := false })

/-- Mirrors `Ppu::write_ppu_ctrl`: store the byte; raise NMI when the
VBlank-NMI enable bit goes 0 to 1 while VBlank is active. -/
def writePpuCtrl {M : Type} (p : Ppu M) (value : Nat) : Ppu M :=
  let oldNmi := p.getCtrlBit 7
  let p1 := { p with ctrl := value }
  if !oldNmi && p1.getCtrlBit 7 && p1.isVblank then { p1 with nmi := true } else p1

/-- Mirrors `Ppu::write_ppu_mask`. -/
def writePpuMask {M : Type} (p : Ppu M) (value : Nat) : Ppu M :=
  { p with mask := value }

/-- Mirrors `Ppu::read_ppu_status` (src/ppu.rs lines 248 to 254): return the
status byte, clear the VBlank bit, and reset both write latches. -/
def readPpuStatus {M : Type} (p : Ppu M) : Nat × Ppu M :=
  let value := p.status
  let p1 := p.setStatusBit 7 false
  (value, { p1 with addr := p1.addr.resetLatch, scroll := p1.scroll.resetLatch })

/-- Mirrors `Ppu::write_ppu_scroll`. -/
def writePpuScroll {M : Type} (p : Ppu M) (value : Nat) : Ppu M :=
  { p with scroll := p.scroll.set value }

/-- Mirrors `Ppu::write_ppu_addr`. -/
def writePpuAddr {M : Type} (p : Ppu M) (value : Nat) : Ppu M :=
  { p with addr := p.addr.set value }

/-- Mirrors `Ppu::addr_increment_amount`: 1 unless PPUCTRL bit 2 is set,
else 32. -/
def addrIncrementAmount {M : Type} (p : Ppu M) : Nat :=
  if !p.getCtrlBit 2 then 1 else 32

/-- Mirrors `Ppu::read_ppu_data` (src/ppu.rs lines 276 to 288): palette
reads (0x3F00 to 0x3FFF) return the device byte immediately, other reads
return the buffer and refill it; in both cases the address is then
post-incremented. -/
def readPpuData {M : Type} [MemDev M] (p : Ppu M) : Option (Nat × Ppu M) :=
  let addr := p.addr.getAddr
  match MemDev.read p.memory addr with
  | none => none
  | some mv =>
    let (result, p1) :=
      if 0x3F00 ≤ addr ∧ addr ≤ 0x3FFF then (mv, p)
      else (p.dataBuffer, { p with dataBuffer := mv })
    some (result, { p1 with addr := p1.addr.incrementAddr p1.addrIncrementAmount })

/-- Mirrors `Ppu::write_ppu_data`: write the byte at the current address,
then post-increment the address. -/
def writePpuData {M : Type} [MemDev M] (p : Ppu M) (value : Nat) : Option (Ppu M) :=
  match MemDev.write p.memory p.addr.getAddr value with
  | none => none
  | some mem2 =>
    some { p with memory := mem2, addr := p.addr.incrementAddr p.addrIncrementAmount }

end Ppu

/-- One external operation on the PPU: a `tick(n)` or one of the register
reads/writes of the public contract (OAMADDR/OAMDATA are unimplemented in
the bus and are omitted). -/
inductive PpuOp where
  | tick (n : Nat)
  | writeCtrl (v : Nat)
  | writeMask (v : Nat)
  | readStatus
  | writeScroll (v : Nat)
  | writeAddr (v : Nat)
  | readData
  | writeData (v : Nat)
deriving Repr, DecidableEq

/-- Apply one `PpuOp`; `none` when the underlying memory device panics. -/
def applyOp {M : Type} [MemDev M] (op : PpuOp) (p : Ppu M) : Option (Ppu M) :=
  match op with
  | .tick n => some (p.tick n)
  | .writeCtrl v => some (p.writePpuCtrl v)
  | .writeMask v => some (p.writePpuMask v)
  | .readStatus => some (p.readPpuStatus).2
  | .writeScroll v => some (p.writePpuScroll v)
  | .writeAddr v => some (p.writePpuAddr v)
  | .readData => (p.readPpuData).map Prod.snd
  | .writeData v => p.writePpuData v

/-- Apply a sequence of operations in order. -/
def applyOps {M : Type} [MemDev M] (l : List PpuOp) (p : Ppu M) : Option (Ppu M) :=
  match l with
  | [] => some p
  | op :: rest => (applyOp op p).bind (applyOps rest)

/-- Mirrors `struct Controller` of src/cpu/controller.rs; the eight button
states are a function from button index to pressed-state. -/
structure Controller where
  strobe : Bool
  selectedButton : Nat
  buttonStates : Nat → Bool

namespace Controller

/-- Mirrors `Controller::new`. -/
def new : Controller :=
  { strobe := false, selectedButton := 0, buttonStates := fun _ => false }

/-- Mirrors `Controller::write`: bit 0 (`value & 1`, rendered `% 2`) sets
strobe mode; entering strobe mode resets the selected button. -/
def write (c : Controller) (value : Nat) : Controller :=
  let c1 : Controller := { c with strobe := decide (value % 2 = 1) }
  if c1.strobe then { c1 with selectedButton := 0 } else c1

/-- Mirrors `Controller::read`: in strobe mode always report button A;
otherwise report the selected button and advance, returning 1 once all
eight buttons have been read. -/
def read (c : Controller) : Nat × Controller :=
  if c.strobe then ((if c.buttonStates 0 then 1 else 0), c)
  else if 8 ≤ c.selectedButton then (1, c)
  else ((if c.buttonStates c.selectedButton then 1 else 0),
    { c with selectedButton := c.selectedButton + 1 })

end Controller

/-- The cartridge value consumed by the bus; mirrors the fields of
`struct NesRom` (src/nes_rom.rs) that the execution core reads.  The
file-parsing-only fields (trainer, mapper id, PRG-RAM size, TV system) are
outside the spec's scope and omitted. -/
structure NesRom where
  prgRom : List Nat
  chrRom : List Nat
  nametableMirroring : NametableMirroring

/-- Mirrors `struct Bus` of src/cpu/bus.rs: 2 KiB internal RAM (backed by a
`Ram(0x8000)` vector), the cartridge, 8 KiB PRG-RAM, the owned PPU and
controller, and the CPU cycle counter. -/
structure Bus where
  sram : Nat → Nat
  rom : NesRom
  prgRam : Nat → Nat
  ppu : Ppu PpuMemory
  controller : Controller
  cycle : Nat

namespace Bus

/-- Mirrors `Bus::new`. -/
def new (rom : NesRom) : Bus :=
  { sram := fun _ => 0, rom := rom, prgRam := fun _ => 0,
    ppu := Ppu.new rom.chrRom rom.nametableMirroring,
    controller := Controller.new, cycle := 0 }

/-- Mirrors `Bus::tick`: forward three PPU dots per elapsed CPU cycle
(the `u32` subtraction is truncated; callers pass a monotone counter). -/
def tick (b : Bus) (cycle : Nat) : Bus :=
  let delta := cycle - b.cycle
  { b with cycle := cycle, ppu := b.ppu.tick (delta * 3) }

/-- Mirrors `Bus::read` (src/cpu/bus.rs lines 43 to 71).  `none` stands for
the panics (PPU register reads other than PPUSTATUS and PPUDATA, the
`unimplemented!` OAMDATA read, PRG-ROM indexing with an empty ROM); the
final branch is the warned unmapped read returning 0. -/
def read (b : Bus) (a : Nat) : Option (Nat × Bus) :=
  if a < 0x2000 then some (b.sram (a % 0x800), b)
  else if 0x2000 ≤ a ∧ a < 0x4000 then
    let register := (a - 0x2000) % 8
    if register = 2 then
      let (v, ppu2) := b.ppu.readPpuStatus
      some (v, { b with ppu := ppu2 })
    else if register = 4 then none
    else if register = 7 then
      (b.ppu.readPpuData).map fun vp => (vp.1, { b with ppu := vp.2 })
    else none
  else if a = 0x4016 then
    let (v, c2) := b.controller.read
    some (v, { b with controller := c2 })
  else if a = 0x4017 then some (0, b)
  else if 0x6000 ≤ a ∧ a < 0x8000 then some (b.prgRam (a - 0x6000), b)
  else if 0x8000 ≤ a then
    if b.rom.prgRom.length = 0 then none
    else some (b.rom.prgRom.getD ((a - 0x8000) % b.rom.prgRom.length) 0, b)
  else some (0, b)

/-- Mirrors `Bus::write` (src/cpu/bus.rs lines 73 to 104).  `none` stands
for the panics (PPU register 2, the `unimplemented!` OAMDATA write, CHR
panics surfacing through PPUDATA, and the final unmapped-write panic); the
OAM DMA trigger 0x4014, OAMADDR (register 3) and the APU range are
commented-out stubs, hence no-ops. -/
def write (b : Bus) (a v : Nat) : Option Bus :=
  if a < 0x2000 then
    some { b with sram := fun i => if i = a % 0x800 then v else b.sram i }
  else if 0x2000 ≤ a ∧ a < 0x4000 then
    let register := (a - 0x2000) % 8
    if register = 0 then some { b with ppu := b.ppu.writePpuCtrl v }
    else if register = 1 then some { b with ppu := b.ppu.writePpuMask v }
    else if register = 3 then some b
    else if register = 4 then none
    else if register = 5 then some { b with ppu := b.ppu.writePpuScroll v }
    else if register = 6 then some { b with ppu := b.ppu.writePpuAddr v }
    else if register = 7 then (b.ppu.writePpuData v).map fun p2 => { b with ppu := p2 }
    else none
  else if a = 0x4014 then some b
  else if a = 0x4016 then some { b with controller := b.controller.write v }
  else if 0x4000 ≤ a ∧ a ≤ 0x4017 then some b
  else if 0x6000 ≤ a ∧ a < 0x8000 then
    some { b with prgRam := fun i => if i = a - 0x6000 then v else b.prgRam i }
  else none

/-- Mirrors `Bus::reset_vector` (src/cpu/bus.rs lines 106 to 110): the
little-endian word read from PRG-ROM at the offsets of 0xFFFC/0xFFFD,
reduced modulo the PRG-ROM length; `none` models the panic on an empty
PRG-ROM. -/
def resetVector (b : Bus) : Option Nat :=
  if b.rom.prgRom.length = 0 then none
  else
    let hi := b.rom.prgRom.getD ((0xFFFD - 0x8000) % b.rom.prgRom.length) 0
    let lo := b.rom.prgRom.getD ((0xFFFC - 0x8000) % b.rom.prgRom.length) 0
    some (hi * 256 + lo)

end Bus

/-! Concrete machine configurations used to instantiate the theorems. -/

/-- Memory image for the indirect-jump evaluation: a JMP ($02FF) operand at
address 0, target low byte 0x34 at 0x02FF, and distinguishable candidate
high bytes 0x12 at 0x0200 (same page) and 0x56 at 0x0300 (next page). -/
def c1Mem : Nat → Nat := fun a =>
  if a = 0 then 0xFF
  else if a = 1 then 0x02
  else if a = 0x02FF then 0x34
  else if a = 0x0200 then 0x12
  else if a = 0x0300 then 0x56
  else 0

/-- CPU state entering `jmp_indirect` with the operand bytes of `c1Mem` at
PC. -/
def c1St : CpuState :=
  { regs := { pc := 0, a := 0, x := 0, y := 0, p := 0, s := 0 }, mem := c1Mem }

/-- Memory image with `JSR 0x1234` at 0x8000 and `RTS` at 0x1234. -/
def c8Mem : Nat → Nat := fun a =>
  if a = 0x8000 then 0x20
  else if a = 0x8001 then 0x34
  else if a = 0x8002 then 0x12
  else if a = 0x1234 then 0x60
  else 0

/-- CPU state just after fetching the JSR opcode of `c8Mem`. -/
def c8St : CpuState :=
  { regs := { pc := 0x8001, a := 0, x := 0, y := 0, p := 0, s := 0xFD },
    mem := c8Mem }

/-- Memory image with a self-targeting `JMP 0x8000` at 0x8000. -/
def c10Mem : Nat → Nat := fun a =>
  if a = 0x8000 then 0x4C
  else if a = 0x8001 then 0x00
  else if a = 0x8002 then 0x80
  else 0

/-- CPU state just after fetching the JMP opcode of `c10Mem`. -/
def c10St : CpuState :=
  { regs := { pc := 0x8001, a := 0, x := 0, y := 0, p := 0, s := 0 },
    mem := c10Mem }

/-- A two-byte PRG-ROM whose mirrored reset vector reads 0xC000: the vector
offsets 0x7FFC and 0x7FFD reduce modulo 2 to indices 0 and 1. -/
def romW : NesRom :=
  { prgRom := [0x00, 0xC0], chrRom := [], nametableMirroring := .Vertical }

/-- A freshly constructed bus over `romW`. -/
def busW : Bus := Bus.new romW

/-- Register file for the ADC witness: A = 0x40, carry set, decimal
clear. -/
def c7Regs : Registers := { pc := 0, a := 0x40, x := 0, y := 0, p := 1, s := 0 }

/-! Theorems settling the claims. -/

/-- C1: the spec demands the 6502 indirect-JMP quirk (pointer low byte 0xFF
wraps within the page, so the high target byte comes from 0xxx00 of the
same page).  `CPU::jmp_indirect` instead adds 1 on the full 16 bits:
evaluated at pointer 0x02FF with 0x12 stored at 0x0200 (same page) and 0x56
at 0x0300 (next page), the code produces PC 0x5634, taking the high byte
from the next page, where the claim requires 0x1234. -/
theorem c1_jmp_indirect_page_cross_eval :
    (CpuState.jmpIndirect c1St).regs.pc = 0x5634 ∧ (0x5634 : Nat) ≠ 0x1234 := by
  decide

/-- C3: PPUSCROLL and PPUADDR do not share a write toggle in the source
(`PpuScroll` has its own `is_x` flag, see the TODO at src/ppu.rs line 59).
After one PPUSCROLL write from the initial state, a PPUADDR write still
sets the HIGH address byte (addr.hi becomes the written 0x12 and addr.lo
stays 0), where the claim requires it to set the low component. -/
theorem c3_separate_latches_eval :
    (((Ppu.newWithMemory (ConstMem.mk 0)).writePpuScroll 0x05).writePpuAddr 0x12).addr.hi
        = 0x12 ∧
    (((Ppu.newWithMemory (ConstMem.mk 0)).writePpuScroll 0x05).writePpuAddr 0x12).addr.lo
        = 0 ∧
    (((Ppu.newWithMemory (ConstMem.mk 0)).writePpuScroll 0x05).writePpuAddr 0x12).scroll.x
        = 0x05 := by
  decide

/-- C5: `Registers::new` (the only CPU initialization in src/cpu.rs)
produces S = 0 (not 0xFD), P = 0 (so the I flag is clear) and the fixed
PC 0x0400 rather than the reset vector; `Bus::reset_vector` does compute
the vector (0xC000 for `romW`) but nothing loads it into PC. -/
theorem c5_registers_new_eval :
    Registers.new.a = 0 ∧ Registers.new.x = 0 ∧ Registers.new.y = 0 ∧
    Registers.new.s = 0 ∧ Registers.new.p = 0 ∧ Registers.new.pc = 0x0400 ∧
    Registers.new.getInteruptBit = false ∧
    Bus.resetVector busW = some 0xC000 := by
  decide

/-- C2 counterexample: with every device byte reading 0x42, a PPUDATA read
at palette address 0x3F00 returns 0x42 immediately, but the internal data
buffer afterwards is still 0 - it is NOT updated to the (mirrored
nametable) byte underneath, which also reads 0x42. -/
theorem c2_palette_read_buffer_counterexample :
    ((((Ppu.newWithMemory (ConstMem.mk 0x42)).writePpuAddr 0x3F).writePpuAddr 0x00).readPpuData).map
        (fun rp => rp.1) = some 0x42 ∧
    ((((Ppu.newWithMemory (ConstMem.mk 0x42)).writePpuAddr 0x3F).writePpuAddr 0x00).readPpuData).map
        (fun rp => rp.2.dataBuffer) = some 0 ∧
    MemDev.read (ConstMem.mk 0x42) 0x2F00 = some 0x42 ∧
    (0 : Nat) ≠ 0x42 := by
  decide

set_option linter.unnecessarySeqFocus false in
/-- Helper: `tick` below a scanline wrap advances the scanline by exactly
one; the VBlank side effects at scanline 241 do not touch the counter. -/
theorem tick342_scanline {M : Type} (p : Ppu M) (h : p.scanline < 262) :
    ((p.tick 342)).scanline = p.scanline + 1 := by
  unfold Ppu.tick
  simp only [Ppu.setStatusBit, Ppu.getCtrlBit]
  norm_num
  split_ifs <;> simp_all <;> omega

/-- Helper: iterating `tick(342)` adds one scanline per call while staying
at or below 262. -/
theorem replicate_tick_scanline {M : Type} [MemDev M] (k : Nat) (p : Ppu M)
    (h : p.scanline + k ≤ 262) :
    (applyOps (List.replicate k (PpuOp.tick 342)) p).map (fun q => q.scanline)
      = some (p.scanline + k) := by
  induction k generalizing p with
  | zero => simp [applyOps]
  | succ n ih =>
    rw [List.replicate_succ]
    have hstep : ((p.tick 342)).scanline = p.scanline + 1 :=
      tick342_scanline p (by omega)
    have := ih (p.tick 342) (by omega)
    simp only [applyOps, applyOp, Option.bind_eq_bind, Option.some_bind] at this ⊢
    rw [this, hstep]
    congr 1
    omega

/-- C4 counterexample: `tick(682)` from the initial state leaves the dot
counter at 341, outside the claimed range 0 to 340, because `tick`
overwrites the counter with its argument and subtracts 341 at most once;
261 consecutive `tick(342)` calls drive the scanline to 262, outside the
claimed range 0 to 261. -/
theorem c4_tick_counterexample :
    (applyOps [PpuOp.tick 682] (Ppu.newWithMemory (ConstMem.mk 0))).map (fun p => p.cycle)
        = some 341 ∧
    ¬ (341 : Nat) ≤ 340 ∧
    (applyOps (List.replicate 261 (PpuOp.tick 342)) (Ppu.newWithMemory (ConstMem.mk 0))).map
        (fun p => p.scanline) = some 262 ∧
    ¬ (262 : Nat) ≤ 261 := by
  refine ⟨by decide, by decide, ?_, by decide⟩
  have h := replicate_tick_scanline (M := ConstMem) 261 (Ppu.newWithMemory (ConstMem.mk 0))
    (by decide)
  rw [show (Ppu.newWithMemory (ConstMem.mk 0)).scanline + 261 = 262 from rfl] at h
  exact h

/-- Helper: incrementing the PPU address adds the amount modulo the 14-bit
address space. -/
theorem incrementAddr_getAddr (a : PpuAddr) (amt : Nat) :
    (a.incrementAddr amt).getAddr = (a.getAddr + amt) % 0x4000 := by
  simp only [PpuAddr.incrementAddr, PpuAddr.getAddr]
  omega

/-- C2 (amended): a PPUDATA read outside the palette range returns the old
buffer and refills it from the device; a palette read returns the device
byte immediately and LEAVES THE BUFFER UNCHANGED (the source performs no
nametable-underneath refill); either way the 14-bit address then
post-increments by 1, or by 32 when PPUCTRL bit 2 is set. -/
theorem c2_readPpuData_spec {M : Type} [MemDev M] (p : Ppu M) (mv : Nat)
    (hread : MemDev.read p.memory p.addr.getAddr = some mv) :
    (p.readPpuData).map (fun rp => rp.1)
        = some (if 0x3F00 ≤ p.addr.getAddr then mv else p.dataBuffer) ∧
    (p.readPpuData).map (fun rp => rp.2.dataBuffer)
        = some (if 0x3F00 ≤ p.addr.getAddr then p.dataBuffer else mv) ∧
    (p.readPpuData).map (fun rp => rp.2.addr.getAddr)
        = some ((p.addr.getAddr +
            (if p.getCtrlBit 2 = false then 1 else 32)) % 0x4000) := by
  have hub : p.addr.getAddr ≤ 0x3FFF := by
    unfold PpuAddr.getAddr
    omega
  by_cases hc : 0x3F00 ≤ p.addr.getAddr
  · have hcond : 0x3F00 ≤ p.addr.getAddr ∧ p.addr.getAddr ≤ 0x3FFF := ⟨hc, hub⟩
    simp only [Ppu.readPpuData, hread, if_pos hcond, if_pos hc, Option.map_some]
    refine ⟨rfl, rfl, ?_⟩
    simp only [Ppu.addrIncrementAmount, Ppu.getCtrlBit]
    rcases Bool.eq_false_or_eq_true (natGetBit p.ctrl 2) with hb | hb <;>
      simp [hb, incrementAddr_getAddr]
  · have hcond : ¬(0x3F00 ≤ p.addr.getAddr ∧ p.addr.getAddr ≤ 0x3FFF) :=
      fun hh => hc hh.1
    simp only [Ppu.readPpuData, hread, if_neg hcond, if_neg hc, Option.map_some]
    refine ⟨rfl, rfl, ?_⟩
    simp only [Ppu.addrIncrementAmount, Ppu.getCtrlBit]
    rcases Bool.eq_false_or_eq_true (natGetBit p.ctrl 2) with hb | hb <;>
      simp [hb, incrementAddr_getAddr]

/-- C2 witness: the amended statement instantiated at the initial PPU over
a constant memory device reading 7, whose current address 0 is outside the
palette range. -/
theorem c2_readPpuData_spec_witness :
    ((Ppu.newWithMemory (ConstMem.mk 7)).readPpuData).map (fun rp => rp.1)
        = some (if 0x3F00 ≤ (Ppu.newWithMemory (ConstMem.mk 7)).addr.getAddr then 7
            else (Ppu.newWithMemory (ConstMem.mk 7)).dataBuffer) ∧
    ((Ppu.newWithMemory (ConstMem.mk 7)).readPpuData).map (fun rp => rp.2.dataBuffer)
        = some (if 0x3F00 ≤ (Ppu.newWithMemory (ConstMem.mk 7)).addr.getAddr then
            (Ppu.newWithMemory (ConstMem.mk 7)).dataBuffer else 7) ∧
    ((Ppu.newWithMemory (ConstMem.mk 7)).readPpuData).map (fun rp => rp.2.addr.getAddr)
        = some (((Ppu.newWithMemory (ConstMem.mk 7)).addr.getAddr +
            (if (Ppu.newWithMemory (ConstMem.mk 7)).getCtrlBit 2 = false then 1
              else 32)) % 0x4000) :=
  c2_readPpuData_spec (Ppu.newWithMemory (ConstMem.mk 7)) 7 rfl

/-- C6 counterexample: writing 0x42 at 0x3F10 and reading 0x3F00 returns
the old palette entry 0 rather than 0x42, because `PpuMemory` maps palette
addresses by plain `(addr - 0x3F00) % 0x20` with no folding of 0x3F10 onto
0x3F00. -/
theorem c6_palette_no_fold_counterexample :
    ((PpuMemory.new [] NametableMirroring.Vertical).write 0x3F10 0x42).bind
        (fun m2 => m2.read 0x3F00) = some 0 ∧ (0 : Nat) ≠ 0x42 := by
  decide

/-- Helper: bounds preserved by a single `tick` with argument at most 682:
the dot counter lands at or below 341 and the scanline at or below 262. -/
theorem tick_bounds {M : Type} (p : Ppu M) (n : Nat) (hn : n ≤ 682)
    (h : p.scanline ≤ 262) :
    (p.tick n).cycle ≤ 341 ∧ (p.tick n).scanline ≤ 262 := by
  unfold Ppu.tick
  simp only [Ppu.setStatusBit, Ppu.getCtrlBit]
  split_ifs <;> simp_all

/-- Helper: a PPUDATA read never touches the frame counters. -/
theorem readPpuData_counters {M : Type} [MemDev M] (p q : Ppu M)
    (h : (p.readPpuData).map Prod.snd = some q) :
    q.cycle = p.cycle ∧ q.scanline = p.scanline := by
  rcases hm : MemDev.read p.memory p.addr.getAddr with _ | mv
  · simp [Ppu.readPpuData, hm] at h
  · by_cases hc : 0x3F00 ≤ p.addr.getAddr ∧ p.addr.getAddr ≤ 0x3FFF
    · simp [Ppu.readPpuData, hm, hc] at h
      subst h
      exact ⟨rfl, rfl⟩
    · simp [Ppu.readPpuData, hm, hc] at h
      subst h
      exact ⟨rfl, rfl⟩

/-- Helper: a PPUDATA write never touches the frame counters. -/
theorem writePpuData_counters {M : Type} [MemDev M] (p q : Ppu M) (v : Nat)
    (h : p.writePpuData v = some q) :
    q.cycle = p.cycle ∧ q.scanline = p.scanline := by
  rcases hm : MemDev.write p.memory p.addr.getAddr v with _ | m2
  · simp [Ppu.writePpuData, hm] at h
  · simp [Ppu.writePpuData, hm] at h
    subst h
    exact ⟨rfl, rfl⟩

/-- Helper: every single operation preserves the counter bounds. -/
theorem applyOp_bounds {M : Type} [MemDev M] (op : PpuOp) (p q : Ppu M)
    (hop : ∀ n, op = PpuOp.tick n → n ≤ 682)
    (h : applyOp op p = some q)
    (hinv : p.cycle ≤ 341 ∧ p.scanline ≤ 262) :
    q.cycle ≤ 341 ∧ q.scanline ≤ 262 := by
  cases op with
  | tick n =>
    simp only [applyOp, Option.some_inj] at h
    subst h
    exact tick_bounds p n (hop n rfl) hinv.2
  | writeCtrl v =>
    simp only [applyOp, Option.some_inj] at h
    subst h
    simp only [Ppu.writePpuCtrl]
    split_ifs <;> simpa using hinv
  | writeMask v =>
    simp only [applyOp, Option.some_inj] at h
    subst h
    simpa [Ppu.writePpuMask] using hinv
  | readStatus =>
    simp only [applyOp, Option.some_inj] at h
    subst h
    simpa [Ppu.readPpuStatus, Ppu.setStatusBit] using hinv
  | writeScroll v =>
    simp only [applyOp, Option.some_inj] at h
    subst h
    simpa [Ppu.writePpuScroll] using hinv
  | writeAddr v =>
    simp only [applyOp, Option.some_inj] at h
    subst h
    simpa [Ppu.writePpuAddr] using hinv
  | readData =>
    simp only [applyOp] at h
    obtain ⟨h1, h2⟩ := readPpuData_counters p q h
    omega
  | writeData v =>
    simp only [applyOp] at h
    obtain ⟨h1, h2⟩ := writePpuData_counters p q v h
    omega

/-- Helper: the bounds are preserved along a whole operation sequence. -/
theorem applyOps_bounds {M : Type} [MemDev M] (l : List PpuOp) (p q : Ppu M)
    (hops : ∀ op ∈ l, ∀ n, op = PpuOp.tick n → n ≤ 682)
    (h : applyOps l p = some q)
    (hinv : p.cycle ≤ 341 ∧ p.scanline ≤ 262) :
    q.cycle ≤ 341 ∧ q.scanline ≤ 262 := by
  induction l generalizing p with
  | nil =>
    simp only [applyOps, Option.some_inj] at h
    subst h
    exact hinv
  | cons op rest ih =>
    simp only [applyOps] at h
    rcases hmid : applyOp op p with _ | r <;> rw [hmid] at h
    · simp at h
    · simp only [Option.some_bind] at h
      exact ih r (fun o ho n he => hops o (List.mem_cons_of_mem _ ho) n he) h
        (applyOp_bounds op p r (fun n he => hops op (List.mem_cons_self _ _) n he)
          hmid hinv)

/-- C4 (amended): in every PPU state reachable from the initial state by
tick calls with arguments at most 682 and register operations, the dot
counter lies in the range 0 to 341 (NOT 0 to 340: `tick` overwrites it with
its argument, reduced by 341 at most once, so larger tick arguments push it
higher still) and the scanline lies in 0 to 262 (it advances by at most one
per tick call and wraps to 0 only after exceeding 262). -/
theorem c4_ppu_counter_bounds {M : Type} [MemDev M] (l : List PpuOp) (m0 : M)
    (q : Ppu M)
    (hops : ∀ op ∈ l, ∀ n, op = PpuOp.tick n → n ≤ 682)
    (h : applyOps l (Ppu.newWithMemory m0) = some q) :
    q.cycle ≤ 341 ∧ q.scanline ≤ 262 :=
  applyOps_bounds l (Ppu.newWithMemory m0) q hops h (by simp [Ppu.newWithMemory])

/-- C4 witness: the amended bound evaluated after a single `tick(682)` from
the initial state. -/
theorem c4_ppu_counter_bounds_witness :
    ((Ppu.newWithMemory (ConstMem.mk 0)).tick 682).cycle ≤ 341 ∧
    ((Ppu.newWithMemory (ConstMem.mk 0)).tick 682).scanline ≤ 262 :=
  c4_ppu_counter_bounds [PpuOp.tick 682] (ConstMem.mk 0)
    ((Ppu.newWithMemory (ConstMem.mk 0)).tick 682)
    (by
      intro op ho n he
      simp only [List.mem_singleton] at ho
      subst ho
      cases he
      omega)
    rfl

/-- C6 (amended): palette addresses map to the 32-byte palette RAM by
plain `(addr - 0x3F00) % 0x20`; the four entries 0x3F10/0x3F14/0x3F18/
0x3F1C are storage cells DISTINCT from 0x3F00/0x3F04/0x3F08/0x3F0C: a
write at the former reads back at the same address, while the partner
address keeps its previous value. -/
theorem c6_palette_mapping (m : PpuMemory) (v o : Nat)
    (ho : o = 0x10 ∨ o = 0x14 ∨ o = 0x18 ∨ o = 0x1C) :
    ((m.write (0x3F00 + o) v).bind (fun m2 => m2.read (0x3F00 + o)) = some v) ∧
    ((m.write (0x3F00 + o) v).bind (fun m2 => m2.read (0x3F00 + (o - 0x10)))
      = m.read (0x3F00 + (o - 0x10))) := by
  rcases ho with h | h | h | h <;> subst h <;>
    simp [PpuMemory.write, PpuMemory.read]

/-- C6 witness: the amended mapping evaluated at entry 0x3F14 over a fresh
palette. -/
theorem c6_palette_mapping_witness :
    (((PpuMemory.new [] NametableMirroring.Vertical).write (0x3F00 + 0x14)
        0x37).bind (fun m2 => m2.read (0x3F00 + 0x14)) = some 0x37) ∧
    (((PpuMemory.new [] NametableMirroring.Vertical).write (0x3F00 + 0x14)
        0x37).bind (fun m2 => m2.read (0x3F00 + (0x14 - 0x10)))
      = (PpuMemory.new [] NametableMirroring.Vertical).read
          (0x3F00 + (0x14 - 0x10))) :=
  c6_palette_mapping (PpuMemory.new [] NametableMirroring.Vertical) 0x37 0x14
    (Or.inr (Or.inl rfl))

set_option maxRecDepth 8000 in
/-- Helper: reading the four touched status bits after the carry, overflow,
zero, negative update chain of `adc` recovers exactly the written
booleans.  Checked by enumeration over all byte values of P. -/
theorem natSetBit_chain_extract :
    ∀ p < 256, ∀ (c v z n : Bool),
      natGetBit (natSetBit (natSetBit (natSetBit (natSetBit p 0 c) 6 v) 1 z) 7 n) 0
          = c ∧
      natGetBit (natSetBit (natSetBit (natSetBit (natSetBit p 0 c) 6 v) 1 z) 7 n) 6
          = v ∧
      natGetBit (natSetBit (natSetBit (natSetBit (natSetBit p 0 c) 6 v) 1 z) 7 n) 1
          = z ∧
      natGetBit (natSetBit (natSetBit (natSetBit (natSetBit p 0 c) 6 v) 1 z) 7 n) 7
          = n := by
  decide


/-- C7: binary-mode ADC (D flag clear) stores the low byte of
A + M + carry-in in A, sets C exactly when the sum exceeds 255, sets V by
the signed-overflow formula not-(A xor M) and (A xor result) and 0x80, and
sets Z and N from the low byte of the result. -/
theorem c7_adc_binary (r : Registers) (m : Nat)
    (_ha : r.a < 256) (_hm : m < 256) (hp : r.p < 256)
    (hd : r.getDecimalBit = false) :
    (r.adc m).a = (r.a + m + (if r.getCarryBit then 1 else 0)) % 256 ∧
    ((r.adc m).getCarryBit = true ↔
      0xFF < r.a + m + (if r.getCarryBit then 1 else 0)) ∧
    ((r.adc m).getOverflowBit = true ↔
      ((r.a ^^^ m) ^^^ 255) &&&
        (r.a ^^^ (r.a + m + (if r.getCarryBit then 1 else 0)) % 256) &&& 0x80
        ≠ 0) ∧
    ((r.adc m).getZeroBit = true ↔
      (r.a + m + (if r.getCarryBit then 1 else 0)) % 256 = 0) ∧
    ((r.adc m).getNegativeBit = true ↔
      (r.a + m + (if r.getCarryBit then 1 else 0)) % 256 &&& 0x80 ≠ 0) := by
  have k0 : ∀ c v z n : Bool,
      natGetBit (natSetBit (natSetBit (natSetBit (natSetBit r.p 0 c) 6 v) 1 z) 7 n) 0
        = c := fun c v z n => (natSetBit_chain_extract r.p hp c v z n).1
  have k6 : ∀ c v z n : Bool,
      natGetBit (natSetBit (natSetBit (natSetBit (natSetBit r.p 0 c) 6 v) 1 z) 7 n) 6
        = v := fun c v z n => (natSetBit_chain_extract r.p hp c v z n).2.1
  have k1 : ∀ c v z n : Bool,
      natGetBit (natSetBit (natSetBit (natSetBit (natSetBit r.p 0 c) 6 v) 1 z) 7 n) 1
        = z := fun c v z n => (natSetBit_chain_extract r.p hp c v z n).2.2.1
  have k7 : ∀ c v z n : Bool,
      natGetBit (natSetBit (natSetBit (natSetBit (natSetBit r.p 0 c) 6 v) 1 z) 7 n) 7
        = n := fun c v z n => (natSetBit_chain_extract r.p hp c v z n).2.2.2
  simp only [Registers.adc, hd, Bool.false_eq_true, if_false,
    Registers.updateCarryBit, Registers.updateOverflowBit, Registers.updateA,
    Registers.updateZnFlags, Registers.updateZeroBit,
    Registers.updateNegativeBit, Registers.updateStatusBit,
    Registers.getCarryBit, Registers.getOverflowBit, Registers.getZeroBit,
    Registers.getNegativeBit, Registers.getStatusBit]
  rw [show (1 <<< 7 : Nat) = 0x80 from rfl]
  simp only [k0, k6, k1, k7, decide_eq_true_eq]
  exact ⟨trivial, trivial, trivial, trivial, trivial⟩

/-- C7 witness: the ADC contract instantiated at A = 0x40, M = 0x40 with
carry-in 1 and decimal mode off. -/
theorem c7_adc_binary_witness :
    (c7Regs.adc 0x40).a
        = (c7Regs.a + 0x40 + (if c7Regs.getCarryBit then 1 else 0)) % 256 ∧
    ((c7Regs.adc 0x40).getCarryBit = true ↔
      0xFF < c7Regs.a + 0x40 + (if c7Regs.getCarryBit then 1 else 0)) ∧
    ((c7Regs.adc 0x40).getOverflowBit = true ↔
      ((c7Regs.a ^^^ 0x40) ^^^ 255) &&&
        (c7Regs.a ^^^
          (c7Regs.a + 0x40 + (if c7Regs.getCarryBit then 1 else 0)) % 256) &&&
        0x80 ≠ 0) ∧
    ((c7Regs.adc 0x40).getZeroBit = true ↔
      (c7Regs.a + 0x40 + (if c7Regs.getCarryBit then 1 else 0)) % 256 = 0) ∧
    ((c7Regs.adc 0x40).getNegativeBit = true ↔
      (c7Regs.a + 0x40 + (if c7Regs.getCarryBit then 1 else 0)) % 256 &&& 0x80
        ≠ 0) :=
  c7_adc_binary c7Regs 0x40 (by decide) (by decide) (by decide) (by decide)

/-- C9: reading any address in the backing-store-free range 0x4018 to
0x5FFF returns 0 (after a logged warning) and leaves the bus unchanged,
while writing there hits the final panic branch; writes into the stubbed
APU register range 0x4000 to 0x4017 are silently dropped (0x4016 is
excluded: it is the mapped controller port, not an APU stub). -/
theorem c9_unmapped_bus (b : Bus) (a v : Nat) :
    (0x4018 ≤ a → a ≤ 0x5FFF →
      Bus.read b a = some (0, b) ∧ Bus.write b a v = none) ∧
    (0x4000 ≤ a → a ≤ 0x4017 → a ≠ 0x4016 → Bus.write b a v = some b) := by
  constructor
  · intro h1 h2
    constructor
    · simp only [Bus.read]
      rw [if_neg (by omega), if_neg (by omega), if_neg (by omega),
        if_neg (by omega), if_neg (by omega), if_neg (by omega)]
    · simp only [Bus.write]
      rw [if_neg (by omega), if_neg (by omega), if_neg (by omega),
        if_neg (by omega), if_neg (by omega), if_neg (by omega)]
  · intro h1 h2 h3
    simp only [Bus.write]
    rw [if_neg (by omega), if_neg (by omega)]
    by_cases h14 : a = 0x4014
    · rw [if_pos h14]
    · rw [if_neg h14, if_neg h3, if_pos (by omega)]

/-- C9 witness: the unmapped-range contract at address 0x5000 and the
APU-drop contract at address 0x4000, on a fresh bus. -/
theorem c9_unmapped_bus_witness :
    Bus.read busW 0x5000 = some (0, busW) ∧ Bus.write busW 0x5000 0 = none ∧
    Bus.write busW 0x4000 7 = some busW :=
  ⟨((c9_unmapped_bus busW 0x5000 0).1 (by decide) (by decide)).1,
    ((c9_unmapped_bus busW 0x5000 0).1 (by decide) (by decide)).2,
    (c9_unmapped_bus busW 0x4000 7).2 (by decide) (by decide) (by decide)⟩

/-- C10: a JMP absolute whose operand equals the address of the JMP opcode
itself makes `jmp_absolute` panic (`Trapped at ...`, modelled as `none`)
even though the instruction is documented and legal on hardware; any other
operand sets PC to the operand and changes nothing else. -/
theorem c10_jmp_absolute_trap (st : CpuState) (p : Nat)
    (hp : p + 2 < 65536)
    (hpc : st.regs.pc = p + 1)
    (_hop : st.mem p = 0x4C) :
    (st.mem (p + 1) + 256 * st.mem (p + 2) = p → st.jmpAbsolute = none) ∧
    (st.mem (p + 1) + 256 * st.mem (p + 2) ≠ p → st.jmpAbsolute =
      some { st with regs :=
        { st.regs with pc := st.mem (p + 1) + 256 * st.mem (p + 2) } }) := by
  have h2 : (p + 1 + 1) % 65536 = p + 2 := Nat.mod_eq_of_lt (by omega)
  constructor
  · intro heq
    simp only [CpuState.jmpAbsolute, CpuState.next, hpc, h2, Nat.add_sub_cancel]
    rw [if_pos heq]
  · intro hne
    simp only [CpuState.jmpAbsolute, CpuState.next, hpc, h2, Nat.add_sub_cancel]
    rw [if_neg hne]

/-- C10 witness: the documented self-loop `JMP 0x8000` placed at 0x8000
aborts execution. -/
theorem c10_jmp_absolute_trap_witness :
    CpuState.jmpAbsolute c10St = none :=
  (c10_jmp_absolute_trap c10St 0x8000 (by decide) rfl rfl).1 (by decide)

/-- C8: JSR at address p (entered with PC past the opcode) pushes p + 2,
the address of the last byte of the 3-byte JSR instruction, high byte
first, and jumps to its operand; after the run loop fetches the RTS opcode
at the target and `rts` executes, PC is p + 3 and the stack pointer is back
at its pre-JSR value. -/
theorem c8_jsr_rts (st : CpuState) (p : Nat)
    (hs : st.regs.s < 256)
    (hp : p + 3 < 65536)
    (hpc : st.regs.pc = p + 1)
    (_hop : st.mem p = 0x20)
    (_hrts : st.jsr.mem st.jsr.regs.pc = 0x60) :
    st.jsr.regs.pc = st.mem (p + 1) + 256 * st.mem (p + 2) ∧
    st.jsr.mem (0x0100 + st.regs.s) = (p + 2) / 256 ∧
    st.jsr.mem (0x0100 + (st.regs.s + 255) % 256) = (p + 2) % 256 ∧
    ({ st.jsr with regs := { st.jsr.regs with
        pc := (st.jsr.regs.pc + 1) % 65536 } }).rts.regs.pc = p + 3 ∧
    ({ st.jsr with regs := { st.jsr.regs with
        pc := (st.jsr.regs.pc + 1) % 65536 } }).rts.regs.s = st.regs.s := by
  have e1 : (p + 1 + 1) % 65536 = p + 2 := by omega
  have e2 : (p + 2 + 1) % 65536 = p + 3 := by omega
  have e3 : (p + 3 + 65535) % 65536 = p + 2 := by omega
  have f2 : (((st.regs.s + 255) % 256 + 255) % 256 + 1) % 256
      = (st.regs.s + 255) % 256 := by omega
  have f3 : ((st.regs.s + 255) % 256 + 1) % 256 = st.regs.s := by omega
  have g1 : ¬(0x0100 + st.regs.s = 0x0100 + (st.regs.s + 255) % 256) := by
    omega
  have e4 : (p + 2) % 256 + 256 * ((p + 2) / 256) = p + 2 := by omega
  refine ⟨?_, ?_, ?_, ?_, ?_⟩
  · simp only [CpuState.jsr, CpuState.next, CpuState.pushStack,
      CpuState.writeMem, hpc, e1, e2, e3]
  · simp only [CpuState.jsr, CpuState.next, CpuState.pushStack,
      CpuState.writeMem, hpc, e1, e2, e3]
    simp [g1]
  · simp only [CpuState.jsr, CpuState.next, CpuState.pushStack,
      CpuState.writeMem, hpc, e1, e2, e3]
    simp [g1]
  · simp only [CpuState.jsr, CpuState.rts, CpuState.next, CpuState.pushStack,
      CpuState.pullStack, CpuState.writeMem, hpc, e1, e2, e3, f2, f3]
    simp [g1]
    omega
  · simp only [CpuState.jsr, CpuState.rts, CpuState.next, CpuState.pushStack,
      CpuState.pullStack, CpuState.writeMem, hpc, e1, e2, e3, f2, f3]

/-- C8 witness: `JSR 0x1234` at 0x8000 with `RTS` at 0x1234 and S = 0xFD:
the pushed return address is 0x8002, and after the RTS the PC is 0x8003
with the stack pointer restored. -/
theorem c8_jsr_rts_witness :
    c8St.jsr.regs.pc = c8St.mem (0x8000 + 1) + 256 * c8St.mem (0x8000 + 2) ∧
    c8St.jsr.mem (0x0100 + c8St.regs.s) = (0x8000 + 2) / 256 ∧
    c8St.jsr.mem (0x0100 + (c8St.regs.s + 255) % 256) = (0x8000 + 2) % 256 ∧
    ({ c8St.jsr with regs := { c8St.jsr.regs with
        pc := (c8St.jsr.regs.pc + 1) % 65536 } }).rts.regs.pc = 0x8000 + 3 ∧
    ({ c8St.jsr with regs := { c8St.jsr.regs with
        pc := (c8St.jsr.regs.pc + 1) % 65536 } }).rts.regs.s = c8St.regs.s :=
  c8_jsr_rts c8St 0x8000 (by decide) (by decide) (by decide) (by decide)
    (by decide)
